import Mathlib

/-!
Verification of the numc benchmarking harness (the `bench/` scripts).

The scripts measure NumPy array kernels: each benchmark cell runs a fixed
number of untimed warmup calls, then a fixed number of timed calls, and
reports mean wall-clock microseconds per timed call, together with derived
throughput metrics (Mop/s, GFLOP/s, GB/s).

Embedding conventions:
- Wall-clock time is modelled by a `Clock` whose `now` field (rationals,
  in seconds, the unit of `time.perf_counter`) advances by the duration of
  each unit-of-work call; `calls` counts how many calls have been executed
  (instrumentation used to state call-count properties).
- A unit of work (one `op(...)` call) is abstracted by a function from the
  call index to either a duration or a raised Python exception; the dtype
  behaviour of the NumPy collaborator (which calls raise which exceptions)
  is modelled separately by `ufuncBuffered`.
- The exception classes caught by the fallback `except` clauses in the
  source are the inductive `PyErr`; uniform in-place array updates are
  modelled by one element value evolving under the per-element semantics
  of the operation.
-/

namespace NumcBench

/-- The 10 numeric dtypes enumerated as ALL_DTYPES in every bench script. -/
inductive Dtype where
  | int8 | uint8 | int16 | uint16 | int32 | uint32 | int64 | uint64 | float32 | float64
deriving DecidableEq, Repr

/-- Whether the dtype is one of the two floating-point dtypes
    (np.issubdtype(dt, np.floating) in the source). -/
def Dtype.isFloat : Dtype → Bool
  | .float32 => true
  | .float64 => true
  | _ => false

/-- The byte width of one element of the dtype. -/
def Dtype.itemsize : Dtype → ℕ
  | .int8 => 1 | .uint8 => 1
  | .int16 => 2 | .uint16 => 2
  | .int32 => 4 | .uint32 => 4
  | .int64 => 8 | .uint64 => 8
  | .float32 => 4 | .float64 => 8

/-- The binary ufuncs appearing in the bench scripts
    (np.add, np.subtract, np.multiply, np.divide, np.floor_divide, np.power). -/
inductive BinOp where
  | add | subtract | multiply | divide | floorDivide | power
deriving DecidableEq, Repr

/-- FILL_VALUES from numpy_bench_elemwise.py / numpy_bench_scalar.py /
    numpy_bench_unary.py: the canonical fill value per dtype. -/
def FILL_VALUES : Dtype → ℚ
  | .int8 => 3 | .uint8 => 3
  | .int16 => 7 | .uint16 => 7
  | .int32 => 42 | .uint32 => 42
  | .int64 => 42 | .uint64 => 42
  | .float32 => 1.5 | .float64 => 1.5

/-- WARMUP from the elementwise/scalar/unary/pow/reduction scripts. -/
def WARMUP : ℕ := 20

/-- ITERS from the elementwise/scalar/unary/pow/reduction scripts. -/
def ITERS : ℕ := 200

/-- Wall-clock state: `now` is the value `time.perf_counter()` would return
    (seconds); `calls` counts unit-of-work calls executed so far
    (instrumentation, not part of the Python state). -/
structure Clock where
  now : ℚ
  calls : ℕ
deriving DecidableEq, Repr

/-- Execute `n` successive calls of the unit of work, where `dur k` is the
    wall-clock duration (seconds) of the call with global index `k`. -/
def runCalls (dur : ℕ → ℚ) : Clock → ℕ → Clock
  | c, 0 => c
  | c, n + 1 => runCalls dur ⟨c.now + dur c.calls, c.calls + 1⟩ n

theorem runCalls_calls (dur : ℕ → ℚ) (c : Clock) (n : ℕ) :
    (runCalls dur c n).calls = c.calls + n := by
  induction n generalizing c with
  | zero => rfl
  | succ n ih =>
      show (runCalls dur ⟨c.now + dur c.calls, c.calls + 1⟩ n).calls = _
      rw [ih]
      dsimp only
      omega

theorem runCalls_now (dur : ℕ → ℚ) (c : Clock) (n : ℕ) :
    (runCalls dur c n).now = c.now + ∑ k ∈ Finset.range n, dur (c.calls + k) := by
  induction n generalizing c with
  | zero => simp [runCalls]
  | succ n ih =>
      show (runCalls dur ⟨c.now + dur c.calls, c.calls + 1⟩ n).now = _
      rw [ih]
      dsimp only
      rw [Finset.sum_range_succ']
      have hs : ∑ i ∈ Finset.range n, dur (c.calls + 1 + i)
          = ∑ i ∈ Finset.range n, dur (c.calls + (i + 1)) :=
        Finset.sum_congr rfl fun i _ => by rw [Nat.add_right_comm, Nat.add_assoc]
      rw [hs, Nat.add_zero]
      ring

theorem runCalls_add (dur : ℕ → ℚ) (c : Clock) (m n : ℕ) :
    runCalls dur c (m + n) = runCalls dur (runCalls dur c m) n := by
  induction m generalizing c with
  | zero => rw [Nat.zero_add]; rfl
  | succ m ih =>
      have h : m + 1 + n = (m + n) + 1 := by omega
      rw [h]
      show runCalls dur ⟨c.now + dur c.calls, c.calls + 1⟩ (m + n) = _
      rw [ih]
      rfl

/-- bench from numpy_bench_matmul.py: run `warmup` untimed calls, read the
    clock, run `iters` timed calls, and return the elapsed time divided by
    `iters`, converted from seconds to microseconds (the 1e6 factor). -/
def bench (dur : ℕ → ℚ) (warmup iters : ℕ) (c : Clock) : Clock × ℚ :=
  let c1 := runCalls dur c warmup
  let t0 := c1.now
  let c2 := runCalls dur c1 iters
  (c2, (c2.now - t0) / (iters : ℚ) * 1000000)

/-- C1: for positive warmup count W and iteration count I, the timing
    function executes the unit of work exactly W + I times (W untimed, then
    I timed) and returns the total wall-clock time of the I timed calls
    divided by I, converted to microseconds; the W warmup durations do not
    occur in the returned value. -/
theorem bench_mean_of_timed_calls (dur : ℕ → ℚ) (W I : ℕ)
    (hW : 0 < W) (hI : 0 < I) (c : Clock) :
    (bench dur W I c).1.calls = c.calls + (W + I) ∧
    (bench dur W I c).2 =
      (∑ k ∈ Finset.range I, dur (c.calls + W + k)) / (I : ℚ) * 1000000 := by
  constructor
  · show (runCalls dur (runCalls dur c W) I).calls = _
    rw [runCalls_calls, runCalls_calls]
    omega
  · show ((runCalls dur (runCalls dur c W) I).now - (runCalls dur c W).now)
        / (I : ℚ) * 1000000 = _
    rw [runCalls_now dur (runCalls dur c W) I, runCalls_calls]
    ring_nf
    rw [add_sub_cancel_left]

/-- Witness for bench_mean_of_timed_calls at dur = const 1, W = 1, I = 2,
    starting from the zero clock. -/
theorem bench_mean_of_timed_calls_witness :
    0 < 1 ∧ 0 < 2 ∧
    ((bench (fun _ => (1 : ℚ)) 1 2 ⟨0, 0⟩).1.calls = 0 + (1 + 2) ∧
     (bench (fun _ => (1 : ℚ)) 1 2 ⟨0, 0⟩).2 =
       (∑ k ∈ Finset.range 2, (1 : ℚ)) / (2 : ℚ) * 1000000) :=
  ⟨by decide, by decide,
    bench_mean_of_timed_calls (fun _ => (1 : ℚ)) 1 2 (by decide) (by decide) ⟨0, 0⟩⟩

/-! ## Buffered call attempts, exceptions, and the fallback policy

time_binary in numpy_bench_elemwise.py (and its twins time_scalar and
time_unary) wraps the warmup+timed loop of the output-buffer call form in
a try block whose except clause catches exactly TypeError,
np.exceptions.DTypePromotionError and
np._core._exceptions._UFuncOutputCastingError, and on catching re-runs
the complete warmup+timed loop with the allocating call form. -/

/-- The Python exception classes relevant to the bench scripts. The first
    three are the classes named in the except clauses; `valueError`,
    `memoryError` and `otherExc` stand for any exception class not named
    there (they propagate out of the timing helper). -/
inductive PyErr where
  | typeError
  | dtypePromotionError
  | ufuncOutputCastingError
  | valueError
  | memoryError
  | otherExc
deriving DecidableEq, Repr

/-- Whether the except clause of time_binary / time_scalar / time_unary
    catches this exception class. -/
def caughtByFallback : PyErr → Bool
  | .typeError => true
  | .dtypePromotionError => true
  | .ufuncOutputCastingError => true
  | _ => false

/-- The two recognized rejection conditions of the specification. -/
inductive RejectKind where
  | resultTypeMismatch
  | outputCastNotSafe
deriving DecidableEq, Repr

/-- Classification of the caught exception classes into the two
    recognized conditions of the specification: TypeError and
    DTypePromotionError both report that the operation would produce a
    result dtype other than that of the supplied buffer, and
    _UFuncOutputCastingError reports that the result cannot be cast to the
    supplied buffer under the same_kind rule. Exceptions outside the
    except clause map to none. -/
def PyErr.rejectKind : PyErr → Option RejectKind
  | .typeError => some .resultTypeMismatch
  | .dtypePromotionError => some .resultTypeMismatch
  | .ufuncOutputCastingError => some .outputCastNotSafe
  | _ => none

theorem caughtByFallback_eq_isSome (e : PyErr) :
    caughtByFallback e = (PyErr.rejectKind e).isSome := by
  cases e <;> rfl

/-- Execute up to `n` successive calls of a unit of work that may raise:
    `f k` is either the duration of the call with global index `k` or the
    exception it raises. On an exception the loop aborts, returning the
    clock reached so far together with the exception. -/
def runCallsE (f : ℕ → Except PyErr ℚ) : Clock → ℕ → Except (Clock × PyErr) Clock
  | c, 0 => .ok c
  | c, n + 1 =>
    match f c.calls with
    | .error e => .error (c, e)
    | .ok d => runCallsE f ⟨c.now + d, c.calls + 1⟩ n

/-- The try block of time_binary: WARMUP untimed calls, a perf_counter
    read, ITERS timed calls, a perf_counter read, and the mean timed
    microseconds; an exception anywhere aborts the block. -/
def tryTimed (f : ℕ → Except PyErr ℚ) (c : Clock) :
    Except (Clock × PyErr) (Clock × ℚ) :=
  match runCallsE f c WARMUP with
  | .error ce => .error ce
  | .ok c1 =>
    match runCallsE f c1 ITERS with
    | .error ce => .error ce
    | .ok c2 => .ok (c2, (c2.now - c1.now) / (ITERS : ℚ) * 1000000)

/-- The value produced by one timing-helper call, instrumented with the
    flag saying whether the reported microseconds came from the allocating
    fallback call form (the except branch) rather than the output-buffer
    form (the try branch). -/
structure Timed where
  clock : Clock
  micros : ℚ
  usedFallback : Bool
deriving DecidableEq, Repr

/-- time_binary from numpy_bench_elemwise.py (time_scalar and time_unary
    are structurally identical): attempt the full warmup+timed loop with
    the output-buffer call form `opBuf`; if it raises one of the caught
    exception classes, re-run the full warmup+timed loop with the
    allocating call form `opAlloc` (an exception there propagates); any
    other exception propagates immediately. -/
def time_binary (opBuf opAlloc : ℕ → Except PyErr ℚ) (c : Clock) :
    Except PyErr Timed :=
  match tryTimed opBuf c with
  | .ok (c2, us) => .ok ⟨c2, us, false⟩
  | .error (c1, e) =>
    if caughtByFallback e then
      match tryTimed opAlloc c1 with
      | .ok (c2, us) => .ok ⟨c2, us, true⟩
      | .error (_, e2) => .error e2
    else .error e

/-- The allocating call form `op(a, b)`: never rejected on dtype grounds,
    each call takes its wall-clock duration. -/
def ufuncAllocating (dur : ℕ → ℚ) : ℕ → Except PyErr ℚ :=
  fun k => .ok (dur k)

theorem runCallsE_allocating (dur : ℕ → ℚ) (c : Clock) (n : ℕ) :
    runCallsE (ufuncAllocating dur) c n = .ok (runCalls dur c n) := by
  induction n generalizing c with
  | zero => rfl
  | succ n ih => exact ih _

theorem runCallsE_firstError (f : ℕ → Except PyErr ℚ) (c : Clock) (e : PyErr)
    (n : ℕ) (h : f c.calls = .error e) :
    runCallsE f c (n + 1) = .error (c, e) := by
  simp only [runCallsE, h]

theorem tryTimed_allocating (dur : ℕ → ℚ) (c : Clock) :
    tryTimed (ufuncAllocating dur) c =
      .ok (runCalls dur c (WARMUP + ITERS),
           (∑ k ∈ Finset.range ITERS, dur (c.calls + WARMUP + k)) / (ITERS : ℚ)
             * 1000000) := by
  have hnow := runCalls_now dur (runCalls dur c WARMUP) ITERS
  rw [runCalls_calls] at hnow
  simp only [tryTimed, runCallsE_allocating]
  rw [hnow, add_sub_cancel_left, runCalls_add]

theorem tryTimed_firstError (f : ℕ → Except PyErr ℚ) (c : Clock) (e : PyErr)
    (h : f c.calls = .error e) :
    tryTimed f c = .error (c, e) := by
  unfold tryTimed
  have h20 : WARMUP = 19 + 1 := rfl
  rw [h20, runCallsE_firstError f c e 19 h]

/-- C2: when the buffered attempt of time_binary aborts with an exception
    classified as one of the two recognized rejection conditions, the
    partial measurement is discarded and the complete WARMUP + ITERS loop
    is re-run with the allocating call form, whose timed calls alone
    determine the returned mean; when the exception is of any other class
    it propagates and no measurement is produced. -/
theorem time_binary_reject_policy (opBuf : ℕ → Except PyErr ℚ) (durA : ℕ → ℚ)
    (c c1 : Clock) (e : PyErr)
    (h : tryTimed opBuf c = .error (c1, e)) :
    ((∃ r, PyErr.rejectKind e = some r) →
      time_binary opBuf (ufuncAllocating durA) c =
        .ok ⟨runCalls durA c1 (WARMUP + ITERS),
             (∑ k ∈ Finset.range ITERS, durA (c1.calls + WARMUP + k)) / (ITERS : ℚ)
               * 1000000,
             true⟩) ∧
    (PyErr.rejectKind e = none →
      time_binary opBuf (ufuncAllocating durA) c = .error e) := by
  constructor
  · rintro ⟨r, hr⟩
    have hc : caughtByFallback e = true := by
      rw [caughtByFallback_eq_isSome, hr]; rfl
    simp only [time_binary, h, hc, if_true, tryTimed_allocating]
  · intro hr
    have hc : caughtByFallback e = false := by
      rw [caughtByFallback_eq_isSome, hr]; rfl
    simp only [time_binary, h, hc, Bool.false_eq_true, if_false]

/-- Witness for time_binary_reject_policy: a buffered form whose first
    call raises DTypePromotionError, from the zero clock. -/
theorem time_binary_reject_policy_witness :
    tryTimed (fun _ => .error .dtypePromotionError) ⟨0, 0⟩ =
      .error (⟨0, 0⟩, .dtypePromotionError) ∧
    (((∃ r, PyErr.rejectKind .dtypePromotionError = some r) →
      time_binary (fun _ => .error .dtypePromotionError)
          (ufuncAllocating fun _ => (1 : ℚ)) ⟨0, 0⟩ =
        .ok ⟨runCalls (fun _ => (1 : ℚ)) ⟨0, 0⟩ (WARMUP + ITERS),
             (∑ k ∈ Finset.range ITERS, (1 : ℚ)) / (ITERS : ℚ) * 1000000,
             true⟩) ∧
    (PyErr.rejectKind .dtypePromotionError = none →
      time_binary (fun _ => .error .dtypePromotionError)
          (ufuncAllocating fun _ => (1 : ℚ)) ⟨0, 0⟩ = .error .dtypePromotionError)) :=
  ⟨rfl,
    time_binary_reject_policy (fun _ => .error .dtypePromotionError)
      (fun _ => (1 : ℚ)) ⟨0, 0⟩ ⟨0, 0⟩ .dtypePromotionError rfl⟩

/-! ## The NumPy collaborator: result dtypes of same-dtype binary ufunc calls

bench_contiguous builds, for each dtype dt, operands a and b and an output
buffer out all of dtype dt, and calls op(a, b, out=out). NumPy computes
the natural result dtype of the ufunc and raises
_UFuncOutputCastingError when that result cannot be cast to the dtype of
out under the same_kind rule. For the ufuncs and same-dtype operand pairs
used by the scripts, only true division on integer operands produces a
different result dtype (float64). -/

/-- Result dtype of `op` applied to two operands of dtype `dt` (NumPy
    promotion for same-dtype operands): true division of integers promotes
    to float64, every other op/dtype pair used by the scripts keeps the
    operand dtype. -/
def resultDtype (op : BinOp) (dt : Dtype) : Dtype :=
  match op with
  | .divide => if dt.isFloat then dt else .float64
  | _ => dt

/-- Whether a value of dtype `src` can be written into a buffer of dtype
    `dst` under the same_kind casting rule of ufunc out= arguments: a
    float result cannot be written to an integer buffer; every other
    combination arising here (equal dtypes, or integer into integer) is
    allowed. -/
def sameKindCastOK (src dst : Dtype) : Bool :=
  !(src.isFloat && !dst.isFloat)

/-- The OperationCatalog flag of the specification: whether the natural
    result dtype of op on same-dtype operands differs from the operand
    dtype. -/
def resultDtypeMayDiffer (op : BinOp) (dt : Dtype) : Bool :=
  resultDtype op dt != dt

theorem sameKindCastOK_eq_not_mayDiffer (op : BinOp) (dt : Dtype) :
    sameKindCastOK (resultDtype op dt) dt = !resultDtypeMayDiffer op dt := by
  cases op <;> cases dt <;> rfl

/-- The output-buffer call form `op(a, b, out=out)` with operands of dtype
    `dt` and a buffer of dtype `outDt`: if the result dtype cannot be cast
    to the buffer under same_kind, every call raises
    _UFuncOutputCastingError; otherwise each call takes its wall-clock
    duration. -/
def ufuncBuffered (op : BinOp) (dt outDt : Dtype) (dur : ℕ → ℚ) :
    ℕ → Except PyErr ℚ :=
  fun k =>
    if sameKindCastOK (resultDtype op dt) outDt then .ok (dur k)
    else .error .ufuncOutputCastingError

/-- One cell of bench_contiguous in numpy_bench_elemwise.py: operands and
    output buffer share dtype `dt`, and the cell value is
    time_binary(op, a, b, out). `durB` and `durA` give the wall-clock
    durations of the buffered and allocating call forms. -/
def benchCell (op : BinOp) (dt : Dtype) (durB durA : ℕ → ℚ) (c : Clock) :
    Except PyErr Timed :=
  time_binary (ufuncBuffered op dt dt durB) (ufuncAllocating durA) c

theorem benchCell_eq (op : BinOp) (dt : Dtype) (durB durA : ℕ → ℚ) (c : Clock) :
    benchCell op dt durB durA c =
      if resultDtypeMayDiffer op dt then
        .ok ⟨runCalls durA c (WARMUP + ITERS),
             (∑ k ∈ Finset.range ITERS, durA (c.calls + WARMUP + k)) / (ITERS : ℚ)
               * 1000000,
             true⟩
      else
        .ok ⟨runCalls durB c (WARMUP + ITERS),
             (∑ k ∈ Finset.range ITERS, durB (c.calls + WARMUP + k)) / (ITERS : ℚ)
               * 1000000,
             false⟩ := by
  have hck := sameKindCastOK_eq_not_mayDiffer op dt
  cases hmd : resultDtypeMayDiffer op dt with
  | false =>
      rw [hmd] at hck
      have hfun : ufuncBuffered op dt dt durB = ufuncAllocating durB := by
        funext k
        simp only [ufuncBuffered, ufuncAllocating, hck, Bool.not_false, if_true]
      simp only [benchCell, time_binary, hfun, tryTimed_allocating, if_false,
        Bool.false_eq_true]
  | true =>
      rw [hmd] at hck
      have hfail : ufuncBuffered op dt dt durB c.calls
          = .error .ufuncOutputCastingError := by
        simp only [ufuncBuffered, hck, Bool.not_true, Bool.false_eq_true, if_false]
      have htry : tryTimed (ufuncBuffered op dt dt durB) c
          = .error (c, .ufuncOutputCastingError) :=
        tryTimed_firstError _ c _ hfail
      simp only [benchCell, time_binary, htry, caughtByFallback, if_true,
        tryTimed_allocating]

/-- C3: the allocating fallback activates if and only if the operation and
    dtype pair is one whose result dtype may differ from the operand
    dtype; in particular a contiguous binary divide on int64 operands with
    an int64 output buffer falls back, and a contiguous binary add on
    float32 operands with a float32 output buffer does not. -/
theorem fallback_iff_result_dtype_differs (op : BinOp) (dt : Dtype)
    (durB durA : ℕ → ℚ) (c : Clock) :
    (∃ m : Timed, benchCell op dt durB durA c = .ok m ∧
        m.usedFallback = resultDtypeMayDiffer op dt) ∧
    resultDtypeMayDiffer .divide .int64 = true ∧
    resultDtypeMayDiffer .add .float32 = false ∧
    (∃ m : Timed, benchCell .divide .int64 durB durA c = .ok m ∧
        m.usedFallback = true) ∧
    (∃ m : Timed, benchCell .add .float32 durB durA c = .ok m ∧
        m.usedFallback = false) := by
  refine ⟨?_, rfl, rfl, ?_, ?_⟩
  · cases hmd : resultDtypeMayDiffer op dt with
    | false =>
        exact ⟨⟨runCalls durB c (WARMUP + ITERS),
            (∑ k ∈ Finset.range ITERS, durB (c.calls + WARMUP + k)) / (ITERS : ℚ)
              * 1000000, false⟩,
          by rw [benchCell_eq, hmd, if_neg (by simp)], rfl⟩
    | true =>
        exact ⟨⟨runCalls durA c (WARMUP + ITERS),
            (∑ k ∈ Finset.range ITERS, durA (c.calls + WARMUP + k)) / (ITERS : ℚ)
              * 1000000, true⟩,
          by rw [benchCell_eq, hmd, if_pos rfl], rfl⟩
  · exact ⟨_, by rw [benchCell_eq]; rfl, rfl⟩
  · exact ⟨_, by rw [benchCell_eq]; rfl, rfl⟩

/-- Size of the arrays in bench_contiguous, as called from main in
    numpy_bench_elemwise.py. -/
def CONTIG_SIZE : ℕ := 1000000

/-- C5: each timing value is reported together with the instrument flag
    saying whether the allocating fallback produced it; the contiguous
    binary cell with operation add and dtype int32 (size 1000000, warmup
    20, iterations 200) runs 20 untimed plus 200 timed calls of the
    output-buffer call form and reports usedFallback = false, the mean
    being taken over exactly the 200 timed buffered calls. -/
theorem contiguous_int32_add_measurement (durB durA : ℕ → ℚ) (c : Clock) :
    benchCell .add .int32 durB durA c =
      .ok ⟨runCalls durB c (WARMUP + ITERS),
           (∑ k ∈ Finset.range ITERS, durB (c.calls + WARMUP + k)) / (ITERS : ℚ)
             * 1000000,
           false⟩ ∧
    (runCalls durB c (WARMUP + ITERS)).calls = c.calls + (WARMUP + ITERS) ∧
    WARMUP = 20 ∧ ITERS = 200 ∧ CONTIG_SIZE = 1000000 := by
  refine ⟨?_, runCalls_calls durB c (WARMUP + ITERS), rfl, rfl, rfl⟩
  rw [benchCell_eq]
  rfl

/-! ## The in-place scalar category (numpy_bench_scalar.py)

bench_scalar_inplace_ops builds, per dtype, a uniform array
a = np.full(size, FILL_VALUES[dt]); its op list is
[np.add, np.subtract, np.multiply, np.divide] with np.divide replaced by
np.floor_divide at index 3 for non-float dtypes; for each op it resets
a[:] = v once and then calls time_scalar_inplace(op, a, dt(1)), which runs
WARMUP untimed and ITERS timed calls of op(a, scalar, out=a).

Because the array stays uniform under these in-place scalar updates, the
array state is modelled by the single element value, and one call of
op(a, scalar, out=a) by one application of the per-element step
function. -/

/-- The ops list of bench_scalar_ops / bench_scalar_inplace_ops. -/
def scalarOps : List BinOp := [.add, .subtract, .multiply, .divide]

/-- inplace_ops from bench_scalar_inplace_ops: a copy of the ops list
    whose index 3 is replaced by floor_divide when the dtype is not a
    float dtype. -/
def inplaceOps (dt : Dtype) : List BinOp :=
  if dt.isFloat then scalarOps else scalarOps.set 3 .floorDivide

/-- Iterate the per-element in-place update n times. -/
def runInplace {α : Type} (step : α → α) : α → ℕ → α
  | x, 0 => x
  | x, n + 1 => runInplace step (step x) n

/-- Iterate the per-element in-place update n times, also returning the
    list of values the array holds immediately before each of the n calls
    (instrumentation). -/
def runInplaceTrace {α : Type} (step : α → α) : α → ℕ → α × List α
  | x, 0 => (x, [])
  | x, n + 1 =>
    let r := runInplaceTrace step (step x) n
    (r.1, x :: r.2)

/-- One row of bench_scalar_inplace_ops for dtype `dt` with per-element
    update semantics `step op` and fill value `v` (= FILL_VALUES[dt]): for
    each op of the row, first a[:] = v, then WARMUP untimed calls, then
    ITERS timed calls. The result records, per op, the array value
    immediately before each of the ITERS timed calls. The buffered
    in-place calls of these op/dtype pairs raise no exception (see
    inplace_integer_divide_column), so the except branch of the source is
    not taken. -/
def bench_inplace_row {α : Type} (step : BinOp → α → α) (dt : Dtype) (v : α) :
    List (List α) :=
  (inplaceOps dt).map fun op =>
    (runInplaceTrace (step op) (runInplace (step op) v WARMUP) ITERS).2

theorem runInplace_add {α : Type} (step : α → α) (x : α) (m n : ℕ) :
    runInplace step x (m + n) = runInplace step (runInplace step x m) n := by
  induction m generalizing x with
  | zero => rw [Nat.zero_add]; rfl
  | succ m ih =>
      have h : m + 1 + n = (m + n) + 1 := by omega
      rw [h]
      show runInplace step (step x) (m + n) = _
      rw [ih]
      rfl

theorem runInplaceTrace_trace {α : Type} (step : α → α) (x : α) (n : ℕ) :
    (runInplaceTrace step x n).2
      = (List.range n).map fun k => runInplace step x k := by
  induction n generalizing x with
  | zero => rfl
  | succ n ih =>
      show x :: (runInplaceTrace step (step x) n).2 = _
      rw [ih, List.range_succ_eq_map, List.map_cons, List.map_map]
      rfl

/-- Amended C4: in the in-place scalar category the array is reset to the
    canonical fill value once immediately before each operation of the row
    (so each operation starts its loop from the canonical state), but not
    between calls: the value seen by timed call k of an operation is the
    fill value with WARMUP + k prior applications of that operation, so
    drift accumulates across the 200 measured iterations. -/
theorem inplace_reset_once_per_op {α : Type} (step : BinOp → α → α)
    (dt : Dtype) (v : α) :
    bench_inplace_row step dt v =
      (inplaceOps dt).map fun op =>
        (List.range ITERS).map fun k => runInplace (step op) v (WARMUP + k) := by
  unfold bench_inplace_row
  refine List.map_congr_left fun op _ => ?_
  rw [runInplaceTrace_trace]
  refine List.map_congr_left fun k _ => ?_
  rw [runInplace_add]

/-- Signed 8-bit wraparound, the int8 overflow behaviour of NumPy
    in-place arithmetic. -/
def wrapInt8 (x : ℤ) : ℤ := (x + 128) % 256 - 128

/-- Per-element semantics of the four in-place scalar columns for dtype
    int8, scalar int8(1) (the dt(1) of the source): add, subtract and
    multiply by 1 with 8-bit wraparound, and floor division by 1 in the
    division column (the divide and power branches of the match do not
    occur in the int8 row of bench_scalar_inplace_ops: divide is replaced
    by floor_divide at index 3 and power is not in the ops list). -/
def int8InplaceStep (op : BinOp) (x : ℤ) : ℤ :=
  wrapInt8 (match op with
    | .add => x + 1
    | .subtract => x - 1
    | .multiply => x * 1
    | .floorDivide => Int.fdiv x 1
    | .divide => x
    | .power => x)

set_option maxRecDepth 4000 in
/-- Counterexample to C4 as stated: in the int8 row of
    bench_scalar_inplace_ops (fill value FILL_VALUES[int8] = 3, scalar
    int8(1)), the array value immediately before the second timed call of
    the add column is 24, not the canonical fill value 3: the operand is
    not reset before every timed call, and drift accumulates across the
    measured iterations. -/
theorem inplace_reset_counterexample :
    FILL_VALUES .int8 = 3 ∧
    ((bench_inplace_row int8InplaceStep .int8 3).headI.get? 1 = some 24) ∧
    (24 : ℤ) ≠ 3 := by
  refine ⟨rfl, ?_, by decide⟩
  decide

/-- C10: in bench_scalar_inplace_ops the division column of every
    non-float (integer) dtype is np.floor_divide substituted for
    np.divide, and of the two float dtypes it is np.divide; floor division
    keeps the operand dtype, so the buffered in-place call of the integer
    division column is never rejected (no allocating fallback). -/
theorem inplace_integer_divide_column (dt : Dtype) (dur : ℕ → ℚ) (k : ℕ) :
    (inplaceOps dt).get? 3
      = some (if dt.isFloat then BinOp.divide else BinOp.floorDivide) ∧
    ufuncBuffered .floorDivide dt dt dur k = .ok (dur k) := by
  constructor
  · cases dt <;> rfl
  · show (if sameKindCastOK (resultDtype .floorDivide dt) dt then _ else _) = _
    have h : sameKindCastOK (resultDtype .floorDivide dt) dt = true := by
      cases dt <;> rfl
    rw [h, if_pos rfl]

/-! ## Derived metrics (Reporter) -/

/-- gflops from numpy_bench_matmul.py: 2.0 * M * K * N / (us * 1e3). -/
def gflops (M K N : ℕ) (us : ℚ) : ℚ := 2 * M * K * N / (us * 1000)

/-- C6: the GFLOP/s metric of a matmul case with dimensions M, K, N and a
    measured time of us microseconds per call equals 2 * M * K * N divided
    by (us * 1000); at M = K = N = 256 and us = 1000 it equals exactly
    33.554432. -/
theorem gflops_formula :
    (∀ (M K N : ℕ) (us : ℚ),
        gflops M K N us = 2 * M * K * N / (us * 1000)) ∧
    gflops 256 256 256 1000 = 33.554432 := by
  refine ⟨fun M K N us => rfl, ?_⟩
  norm_num [gflops]

/-- gbs column in bench_scaling of numpy_bench_elemwise.py:
    (3.0 * n * 4) / (us * 1e3), for float32 binary add. -/
def elemwiseGBperS (n : ℕ) (us : ℚ) : ℚ := (3 * n * 4) / (us * 1000)

/-- gbs column in bench_scalar_scaling of numpy_bench_scalar.py:
    (2.0 * n * 4) / (us * 1e3), for float32 scalar add. -/
def scalarGBperS (n : ℕ) (us : ℚ) : ℚ := (2 * n * 4) / (us * 1000)

/-- gbs column in bench_unary_scaling of numpy_bench_unary.py:
    (2.0 * n * 4) / (us * 1e3), for float32 sqrt. -/
def unaryGBperS (n : ℕ) (us : ℚ) : ℚ := (2 * n * 4) / (us * 1000)

/-- gbs column in bench_scaling of numpy_bench_reduction.py:
    (n * 4) / (us * 1e3), for float32 full sum. -/
def reductionGBperS (n : ℕ) (us : ℚ) : ℚ := (n * 4) / (us * 1000)

/-- The operation categories with a GB/s column. -/
inductive OpCategory where
  | binary | unary | scalar | reduction
deriving DecidableEq, Repr

/-- Spec-side definition, following the words of the specification: the
    number of arrays moved per call in each category — two reads and one
    write for binary elementwise ops, one read and one write for unary and
    scalar elementwise ops, one read for a full reduction. -/
def specArraysMoved : OpCategory → ℕ
  | .binary => 3
  | .unary => 2
  | .scalar => 2
  | .reduction => 1

/-- Spec-side definition: bytes moved per call, each array element of the
    dtype contributing its byte width. -/
def specBytesMoved (cat : OpCategory) (n : ℕ) (dt : Dtype) : ℕ :=
  specArraysMoved cat * n * dt.itemsize

/-- C7: each GB/s column of the size-scaling benchmarks equals bytesMoved
    divided by (us * 1000), where bytesMoved counts elementCount times the
    dtype byte width (4, float32) times the per-category array count:
    three arrays for binary elementwise, two for unary and scalar
    elementwise, one for a full reduction. -/
theorem gb_per_s_formulas (n : ℕ) (us : ℚ) :
    elemwiseGBperS n us = specBytesMoved .binary n .float32 / (us * 1000) ∧
    scalarGBperS n us = specBytesMoved .scalar n .float32 / (us * 1000) ∧
    unaryGBperS n us = specBytesMoved .unary n .float32 / (us * 1000) ∧
    reductionGBperS n us = specBytesMoved .reduction n .float32 / (us * 1000) := by
  refine ⟨?_, ?_, ?_, ?_⟩ <;>
    · simp only [elemwiseGBperS, scalarGBperS, unaryGBperS, reductionGBperS,
        specBytesMoved, specArraysMoved, Dtype.itemsize]
      push_cast
      ring

/-- Witness for gb_per_s_formulas at n = 1000000, us = 500. -/
theorem gb_per_s_formulas_witness :
    elemwiseGBperS 1000000 500
        = specBytesMoved .binary 1000000 .float32 / (500 * 1000) ∧
    scalarGBperS 1000000 500
        = specBytesMoved .scalar 1000000 .float32 / (500 * 1000) ∧
    unaryGBperS 1000000 500
        = specBytesMoved .unary 1000000 .float32 / (500 * 1000) ∧
    reductionGBperS 1000000 500
        = specBytesMoved .reduction 1000000 .float32 / (500 * 1000) :=
  gb_per_s_formulas 1000000 500

/-! ## Size sweeps -/

/-- sizes in bench_scaling of numpy_bench_elemwise.py. -/
def elemwiseScalingSizes : List ℕ := [100, 1000, 10000, 100000, 1000000]

/-- sizes in bench_scaling of numpy_bench_pow.py. -/
def powScalingSizes : List ℕ := [100, 1000, 10000, 100000, 1000000]

/-- sizes in bench_unary_scaling of numpy_bench_unary.py. -/
def unaryScalingSizes : List ℕ := [100, 1000, 10000, 100000, 1000000]

/-- sizes in bench_scalar_scaling of numpy_bench_scalar.py. -/
def scalarScalingSizes : List ℕ := [100, 1000, 10000, 100000, 1000000]

/-- sizes in bench_scaling of numpy_bench_reduction.py. -/
def reductionScalingSizes : List ℕ := [100, 1000, 10000, 100000, 1000000]

/-- C8: every size sweep enumerates exactly the five element counts 100,
    1000, 10000, 100000 and 1000000, in strictly ascending order, and no
    other sizes. -/
theorem size_sweep_points :
    elemwiseScalingSizes = [100, 1000, 10000, 100000, 1000000] ∧
    powScalingSizes = elemwiseScalingSizes ∧
    unaryScalingSizes = elemwiseScalingSizes ∧
    scalarScalingSizes = elemwiseScalingSizes ∧
    reductionScalingSizes = elemwiseScalingSizes ∧
    List.Chain' (· < ·) elemwiseScalingSizes := by
  refine ⟨rfl, rfl, rfl, rfl, rfl, ?_⟩
  norm_num [elemwiseScalingSizes, List.chain'_cons, List.chain'_singleton]

/-! ## Broadcast patterns (numpy_bench_elemwise.py) -/

/-- NumPy broadcasting of one aligned dimension pair: equal extents, or a
    1 stretched to the other extent. -/
def broadcastDim (a b : ℕ) : Option ℕ :=
  if a = b then some a
  else if a = 1 then some b
  else if b = 1 then some a
  else none

/-- NumPy broadcasting on reversed (trailing-axis first) shapes; a missing
    leading axis of the shorter shape behaves as extent 1. -/
def broadcastRev : List ℕ → List ℕ → Option (List ℕ)
  | [], ys => some ys
  | xs, [] => some xs
  | x :: xs, y :: ys =>
    match broadcastDim x y, broadcastRev xs ys with
    | some d, some rest => some (d :: rest)
    | _, _ => none

/-- NumPy broadcasting of two shapes (model of the collaborator used by
    op(a, b, out=out) on differently shaped operands). -/
def broadcastShapes (a b : List ℕ) : Option (List ℕ) :=
  (broadcastRev a.reverse b.reverse).map List.reverse

/-- The three patterns of bench_broadcast in numpy_bench_elemwise.py, as
    (a_shape, b_shape, out_shape): row (1,N)+(M,N), outer (M,1)+(1,N) and
    rank (N,)+(M,N), each with out shape (M,N). -/
def broadcastPatterns (M N : ℕ) : List (List ℕ × List ℕ × List ℕ) :=
  [([1, N], [M, N], [M, N]),
   ([M, 1], [1, N], [M, N]),
   ([N], [M, N], [M, N])]

/-- total in bench_broadcast: the declared element count M * N used for
    the Mop/s column of every pattern. -/
def broadcastTotal (M N : ℕ) : ℕ := M * N

/-- mops as printed by the broadcast benchmark rows: total / us. -/
def mopsOf (total : ℕ) (us : ℚ) : ℚ := total / us

/-- C9: at M = N = 1000, each of the three broadcast patterns broadcasts
    its operand shapes to the declared output shape (1000, 1000), whose
    element count 1000000 is the declared count used by the ops-per-second
    metric. -/
theorem broadcast_patterns_shapes :
    ((broadcastPatterns 1000 1000).all fun p =>
        decide (broadcastShapes p.1 p.2.1 = some p.2.2) &&
        decide (p.2.2 = [1000, 1000]) &&
        decide (p.2.2.prod = broadcastTotal 1000 1000)) = true ∧
    broadcastTotal 1000 1000 = 1000000 ∧
    ∀ us : ℚ, mopsOf (broadcastTotal 1000 1000) us = 1000000 / us := by
  refine ⟨by decide, rfl, fun us => ?_⟩
  norm_num [mopsOf, broadcastTotal]

end NumcBench
